import Mathlib

/-!
Verification of the Flask video/audio downloader (`src/app.py`) against its
natural-language specification.  The single request handler `download` is
embedded as a pure function producing the ordered list of observable events
(directory creation, invocation of the extraction tool, flashed messages,
scheduled deferred deletions, and the HTTP response), parametrised by the
form data, the generated UUID hex, and the outcome of the external
extraction tool.  The deferred-deletion worker `cleanup_path` is embedded
as a function from a path state and an injected filesystem error to the
trace of actions it performs.
-/

namespace Downloader

/-- Values stored in a yt-dlp options dictionary: strings, integers,
booleans, Python `None`, and a list of post-processor dictionaries
(each a list of string key/value pairs). -/
inductive OptVal where
  | str (s : String)
  | int (n : Nat)
  | bool (b : Bool)
  | pyNone
  | postprocessors (l : List (List (String × String)))
deriving DecidableEq, Repr

/-- The base temporary folder, `BASE_TEMP = Path("./downloads_temp")` in `app.py`. -/
def BASE_TEMP : String := "./downloads_temp"

/-- The per-request work directory `BASE_TEMP / uid` for a generated UUID hex `uid`. -/
def workdirPath (uid : String) : String := BASE_TEMP ++ "/" ++ uid

/-- The output template `str(workdir / "%(title).100s.%(ext)s")` built in the handler. -/
def outtmpl (workdir : String) : String := workdir ++ "/" ++ "%(title).100s.%(ext)s"

/-- The options dictionary built when `kind == "audio"` (lines 98-110 of `app.py`). -/
def audioOpts (tmpl : String) : List (String × OptVal) :=
  [("format", OptVal.str "bestaudio/best"),
   ("outtmpl", OptVal.str tmpl),
   ("noplaylist", OptVal.bool true),
   ("quiet", OptVal.bool true),
   ("concurrent_fragment_downloads", OptVal.int 5),
   ("postprocessors", OptVal.postprocessors
      [[("key", "FFmpegExtractAudio"),
        ("preferredcodec", "mp3"),
        ("preferredquality", "128")]]),
   ("prefer_ffmpeg", OptVal.bool true)]

/-- The options dictionary built for every other `kind` (lines 112-120 of `app.py`). -/
def videoOpts (tmpl : String) : List (String × OptVal) :=
  [("format", OptVal.str "best[ext=mp4]/best"),
   ("outtmpl", OptVal.str tmpl),
   ("noplaylist", OptVal.bool true),
   ("quiet", OptVal.bool true),
   ("concurrent_fragment_downloads", OptVal.int 5),
   ("merge_output_format", OptVal.pyNone),
   ("prefer_ffmpeg", OptVal.bool true)]

/-- The whitespace characters removed by Python's `str.strip()`. -/
def pyIsSpace (c : Char) : Bool :=
  c == ' ' || c == '\t' || c == '\n' || c == '\r' || c == '\x0b' || c == '\x0c'

/-- Python's `str.strip()`: remove leading and trailing whitespace. -/
def pyStrip (s : String) : String :=
  String.mk (((s.data.dropWhile pyIsSpace).reverse.dropWhile pyIsSpace).reverse)

/-- Python's `s.startswith(p)`: `p` is a prefix of `s`. -/
def pyStartsWith (s p : String) : Bool :=
  p.data.isPrefixOf s.data

/-- URL validation of the handler: the stripped URL is non-empty and starts
with `http://` or `https://` (line 85 of `app.py`, negated). -/
def urlOk (url : String) : Bool :=
  !url.data.isEmpty && (pyStartsWith url "http://" || pyStartsWith url "https://")

/-- A file found by `workdir.glob("*")`: its basename and its `stat().st_size`. -/
structure FsFile where
  name : String
  size : Nat
deriving DecidableEq, Repr

/-- The outcome of `ydl.extract_info(url, download=True)`: either it returns
normally, leaving `files` in the work directory, or it raises an exception
whose text is `msg`. -/
inductive ExtractResult where
  | ok (files : List FsFile)
  | exn (msg : String)
deriving DecidableEq, Repr

/-- An HTTP response produced by the handler: a redirect to the index page
or a `send_file` attachment with its filesystem path and download name. -/
inductive Response where
  | redirectIndex
  | sendFileResp (path : String) (downloadName : String)
deriving DecidableEq, Repr

/-- Observable events of one execution of the `download` handler, in program
order: creating the work directory, invoking the extraction tool,
flashing a message, starting a background cleanup thread, and returning
the response. -/
inductive Event where
  | mkdirEv (path : String)
  | extractEv (opts : List (String × OptVal)) (url : String)
  | flashEv (msg : String)
  | scheduleCleanup (path : String) (delaySeconds : Nat)
  | respondEv (r : Response)
deriving DecidableEq, Repr

/-- The descending comparison induced by `key=lambda p: p.stat().st_size`
together with `reverse=True`. -/
def sizeLe (a b : FsFile) : Bool := decide (b.size ≤ a.size)

/-- Python's `sorted(files, key=lambda p: p.stat().st_size, reverse=True)`:
a stable sort by decreasing file size (line 126 of `app.py`). -/
def sortFiles (files : List FsFile) : List FsFile :=
  files.mergeSort sizeLe

/-- The `download` handler (lines 80-139 of `app.py`) as a pure event trace.
`form` carries the optional `url` and `kind` form fields, `uid` is the
generated `uuid.uuid4().hex`, and `res` is the outcome of the extraction
tool. -/
structure DownloadForm where
  url : Option String
  kind : Option String
deriving DecidableEq, Repr

/-- The stripped URL: `(request.form.get("url") or "").strip()`. -/
def formUrl (form : DownloadForm) : String := pyStrip (form.url.getD "")

/-- The format choice: `request.form.get("kind", "video")`. -/
def formKind (form : DownloadForm) : String := form.kind.getD "video"

/-- Event trace of one execution of the `download` handler. -/
def download (form : DownloadForm) (uid : String) (res : ExtractResult) : List Event :=
  let url := formUrl form
  let kind := formKind form
  if urlOk url = false then
    [Event.flashEv "Please enter a valid URL",
     Event.respondEv Response.redirectIndex]
  else
    let workdir := workdirPath uid
    let opts := if kind == "audio" then audioOpts (outtmpl workdir)
                else videoOpts (outtmpl workdir)
    Event.mkdirEv workdir ::
      match res with
      | ExtractResult.exn msg =>
        [Event.extractEv opts url,
         Event.flashEv ("Error: " ++ msg),
         Event.scheduleCleanup workdir 5,
         Event.respondEv Response.redirectIndex]
      | ExtractResult.ok dirFiles =>
        Event.extractEv opts url ::
          match sortFiles dirFiles with
          | [] =>
            [Event.flashEv "Download completed but file not found.",
             Event.scheduleCleanup workdir 5,
             Event.respondEv Response.redirectIndex]
          | outfile :: _ =>
            [Event.scheduleCleanup workdir 30,
             Event.respondEv (Response.sendFileResp (workdir ++ "/" ++ outfile.name)
               outfile.name)]

/-- The flashed messages of a trace, in order. -/
def flashes (evs : List Event) : List String :=
  evs.filterMap (fun e => match e with | Event.flashEv m => some m | _ => none)

/-- The responses of a trace, in order (the handler returns exactly one). -/
def responses (evs : List Event) : List Response :=
  evs.filterMap (fun e => match e with | Event.respondEv r => some r | _ => none)

/-- The deferred deletions scheduled by a trace: pairs of path and delay in seconds. -/
def scheduledCleanups (evs : List Event) : List (String × Nat) :=
  evs.filterMap (fun e => match e with
    | Event.scheduleCleanup p d => some (p, d)
    | _ => none)

/-- The directories created by a trace. -/
def mkdirs (evs : List Event) : List String :=
  evs.filterMap (fun e => match e with | Event.mkdirEv p => some p | _ => none)

/-- The invocations of the extraction tool in a trace: options dictionary and URL. -/
def extractCalls (evs : List Event) : List (List (String × OptVal) × String) :=
  evs.filterMap (fun e => match e with
    | Event.extractEv o u => some (o, u)
    | _ => none)

/-- The options dictionaries passed to the extraction tool in a trace. -/
def optsUsed (evs : List Event) : List (List (String × OptVal)) :=
  (extractCalls evs).map Prod.fst

/-- The delays, in seconds, of the deferred deletions scheduled by a trace. -/
def deletionDelays (evs : List Event) : List Nat :=
  (scheduledCleanups evs).map Prod.snd

/-- State of the scheduled path when the cleanup worker wakes up: whether the
path still exists and whether it is a regular file. -/
structure PathState where
  stillThere : Bool
  isFile : Bool
deriving DecidableEq, Repr

/-- Filesystem actions performed by the cleanup worker. -/
inductive CleanupAction where
  | sleepFor (seconds : Nat)
  | unlinkFile (path : String)
  | rmtreeDir (path : String)
deriving DecidableEq, Repr

/-- Result of one run of the cleanup worker: the actions it performed in
order, whether it propagated an exception, and whether the path still
exists afterwards. -/
structure CleanupResult where
  actions : List CleanupAction
  raised : Bool
  finalExists : Bool
deriving DecidableEq, Repr

/-- The deletion attempted inside the `try` block of `cleanup_path`:
`path.unlink()` for a file, `shutil.rmtree(path)` for a directory; an
injected filesystem error makes it raise instead. -/
def deleteAttempt (path : String) (isFile : Bool) (fsError : Option String) :
    Except String CleanupAction :=
  match fsError with
  | some e => Except.error e
  | none => Except.ok (if isFile then CleanupAction.unlinkFile path
                       else CleanupAction.rmtreeDir path)

/-- The background worker `cleanup_path(path, wait_seconds)` (lines 63-74 of
`app.py`): sleep for `wait_seconds`, then, if the path still exists, try to
delete it, swallowing any exception (`except: pass`). -/
def cleanup_path (path : String) (wait_seconds : Nat) (st : PathState)
    (fsError : Option String) : CleanupResult :=
  if st.stillThere then
    match deleteAttempt path st.isFile fsError with
    | Except.ok act =>
      { actions := [CleanupAction.sleepFor wait_seconds, act],
        raised := false, finalExists := false }
    | Except.error _ =>
      { actions := [CleanupAction.sleepFor wait_seconds],
        raised := false, finalExists := true }
  else
    { actions := [CleanupAction.sleepFor wait_seconds],
      raised := false, finalExists := false }

/-! ### Helper lemmas shared by the claim theorems -/

theorem formKind_audio_iff (form : DownloadForm) :
    (formKind form == "audio") = true ↔ form.kind = some "audio" := by
  cases hk : form.kind <;> simp [formKind, hk]

theorem download_invalid_eq (form : DownloadForm) (uid : String) (res : ExtractResult)
    (h : urlOk (formUrl form) = false) :
    download form uid res =
      [Event.flashEv "Please enter a valid URL",
       Event.respondEv Response.redirectIndex] := by
  simp [download, h]

theorem download_exn_eq (form : DownloadForm) (uid : String) (msg : String)
    (h : urlOk (formUrl form) = true) :
    download form uid (ExtractResult.exn msg) =
      [Event.mkdirEv (workdirPath uid),
       Event.extractEv
         (if formKind form == "audio" then audioOpts (outtmpl (workdirPath uid))
          else videoOpts (outtmpl (workdirPath uid))) (formUrl form),
       Event.flashEv ("Error: " ++ msg),
       Event.scheduleCleanup (workdirPath uid) 5,
       Event.respondEv Response.redirectIndex] := by
  simp [download, h]

theorem download_ok_nil_eq (form : DownloadForm) (uid : String) (dirFiles : List FsFile)
    (h : urlOk (formUrl form) = true) (hs : sortFiles dirFiles = []) :
    download form uid (ExtractResult.ok dirFiles) =
      [Event.mkdirEv (workdirPath uid),
       Event.extractEv
         (if formKind form == "audio" then audioOpts (outtmpl (workdirPath uid))
          else videoOpts (outtmpl (workdirPath uid))) (formUrl form),
       Event.flashEv "Download completed but file not found.",
       Event.scheduleCleanup (workdirPath uid) 5,
       Event.respondEv Response.redirectIndex] := by
  simp [download, h, hs]

theorem download_ok_cons_eq (form : DownloadForm) (uid : String) (dirFiles : List FsFile)
    (f : FsFile) (rest : List FsFile)
    (h : urlOk (formUrl form) = true) (hs : sortFiles dirFiles = f :: rest) :
    download form uid (ExtractResult.ok dirFiles) =
      [Event.mkdirEv (workdirPath uid),
       Event.extractEv
         (if formKind form == "audio" then audioOpts (outtmpl (workdirPath uid))
          else videoOpts (outtmpl (workdirPath uid))) (formUrl form),
       Event.scheduleCleanup (workdirPath uid) 30,
       Event.respondEv (Response.sendFileResp (workdirPath uid ++ "/" ++ f.name) f.name)] := by
  simp [download, h, hs]

theorem sortFiles_perm (dirFiles : List FsFile) : (sortFiles dirFiles).Perm dirFiles :=
  List.mergeSort_perm dirFiles sizeLe

theorem sortFiles_head_max (dirFiles : List FsFile) (f : FsFile) (rest : List FsFile)
    (hs : sortFiles dirFiles = f :: rest) :
    f ∈ dirFiles ∧ ∀ g ∈ dirFiles, g.size ≤ f.size := by
  have htrans : ∀ a b c : FsFile, sizeLe a b → sizeLe b c → sizeLe a c := by
    intro a b c hab hbc
    simp only [sizeLe, decide_eq_true_eq] at *
    omega
  have htotal : ∀ a b : FsFile, sizeLe a b || sizeLe b a := by
    intro a b
    simp only [sizeLe]
    by_cases hab : b.size ≤ a.size
    · simp [hab]
    · simp only [hab, decide_True, decide_False, Bool.false_or, decide_eq_true_eq]
      omega
  have hsorted : (sortFiles dirFiles).Pairwise (fun a b => sizeLe a b) := by
    have := @List.sorted_mergeSort FsFile sizeLe htrans htotal dirFiles
    exact this
  have hmem : f ∈ dirFiles := by
    have hf : f ∈ sortFiles dirFiles := by
      rw [hs]; exact List.mem_cons_self _ _
    exact List.mem_mergeSort.mp hf
  refine ⟨hmem, ?_⟩
  intro g hg
  have hg' : g ∈ sortFiles dirFiles := List.mem_mergeSort.mpr hg
  rw [hs] at hg'
  rcases List.mem_cons.mp hg' with hgf | hgr
  · subst hgf; exact le_refl _
  · rw [hs] at hsorted
    have := (List.pairwise_cons.mp hsorted).1 g hgr
    simpa [sizeLe] using this

theorem sortFiles_nil_iff (dirFiles : List FsFile) :
    sortFiles dirFiles = [] ↔ dirFiles = [] := by
  constructor
  · intro h
    have := (sortFiles_perm dirFiles).symm
    rw [h] at this
    exact List.perm_nil.mp this
  · intro h; subst h; simp [sortFiles]

theorem workdirPath_injective (uid1 uid2 : String)
    (h : workdirPath uid1 = workdirPath uid2) : uid1 = uid2 := by
  have hdata : (BASE_TEMP ++ "/" ++ uid1).data = (BASE_TEMP ++ "/" ++ uid2).data := by
    rw [show BASE_TEMP ++ "/" ++ uid1 = workdirPath uid1 from rfl,
        show BASE_TEMP ++ "/" ++ uid2 = workdirPath uid2 from rfl, h]
  simp only [String.data_append] at hdata
  have : uid1.data = uid2.data := List.append_cancel_left hdata
  exact String.ext this

theorem optsUsed_download (form : DownloadForm) (uid : String) (res : ExtractResult)
    (hurl : urlOk (formUrl form) = true) :
    optsUsed (download form uid res) =
      [if formKind form == "audio" then audioOpts (outtmpl (workdirPath uid))
       else videoOpts (outtmpl (workdirPath uid))] := by
  cases res with
  | exn msg =>
    rw [download_exn_eq form uid msg hurl]
    simp [optsUsed, extractCalls]
  | ok dirFiles =>
    rcases hs : sortFiles dirFiles with _ | ⟨f, rest⟩
    · rw [download_ok_nil_eq form uid dirFiles hurl hs]
      simp [optsUsed, extractCalls]
    · rw [download_ok_cons_eq form uid dirFiles f rest hurl hs]
      simp [optsUsed, extractCalls]

/-! ### Claim theorems -/

/-- C1: after a successful run of the extraction tool, the handler sorts the
entries of the work directory by file size in decreasing order and serves
the first entry, which is a largest file of the directory, as the response
attachment, for every work directory containing at least one file. -/
theorem C1_serves_largest_file (form : DownloadForm) (uid : String) (dirFiles : List FsFile)
    (hurl : urlOk (formUrl form) = true) (hne : dirFiles ≠ []) :
    ∃ f rest, sortFiles dirFiles = f :: rest ∧ f ∈ dirFiles ∧
      (∀ g ∈ dirFiles, g.size ≤ f.size) ∧
      responses (download form uid (ExtractResult.ok dirFiles)) =
        [Response.sendFileResp (workdirPath uid ++ "/" ++ f.name) f.name] := by
  rcases hs : sortFiles dirFiles with _ | ⟨f, rest⟩
  · exact absurd ((sortFiles_nil_iff dirFiles).mp hs) hne
  · obtain ⟨hmem, hmax⟩ := sortFiles_head_max dirFiles f rest hs
    refine ⟨f, rest, rfl, hmem, hmax, ?_⟩
    rw [download_ok_cons_eq form uid dirFiles f rest hurl hs]
    simp [responses]

/-- Witness for C1 at a concrete request with one file in the work directory. -/
theorem C1_serves_largest_file_witness :
    ∃ f rest, sortFiles [FsFile.mk "clip.mp4" 2048] = f :: rest ∧
      f ∈ [FsFile.mk "clip.mp4" 2048] ∧
      (∀ g ∈ [FsFile.mk "clip.mp4" 2048], g.size ≤ f.size) ∧
      responses (download (DownloadForm.mk (some "https://example.com/v") (some "video"))
          "aabb01" (ExtractResult.ok [FsFile.mk "clip.mp4" 2048])) =
        [Response.sendFileResp (workdirPath "aabb01" ++ "/" ++ f.name) f.name] :=
  C1_serves_largest_file (DownloadForm.mk (some "https://example.com/v") (some "video"))
    "aabb01" [FsFile.mk "clip.mp4" 2048] (by decide) (by decide)

/-- C2: the options dictionary passed to the extraction tool is determined
entirely by the format choice: `kind = "audio"` selects the audio options
(format `bestaudio/best` with an mp3 `FFmpegExtractAudio` post-processor),
and every other kind, including a missing field, selects the video options
(format `best[ext=mp4]/best`). -/
theorem C2_opts_determined_by_kind (form : DownloadForm) (uid : String) (res : ExtractResult)
    (hurl : urlOk (formUrl form) = true) :
    (form.kind = some "audio" →
      optsUsed (download form uid res) = [audioOpts (outtmpl (workdirPath uid))]) ∧
    (form.kind ≠ some "audio" →
      optsUsed (download form uid res) = [videoOpts (outtmpl (workdirPath uid))]) ∧
    List.lookup "format" (audioOpts (outtmpl (workdirPath uid)))
      = some (OptVal.str "bestaudio/best") ∧
    List.lookup "postprocessors" (audioOpts (outtmpl (workdirPath uid)))
      = some (OptVal.postprocessors
          [[("key", "FFmpegExtractAudio"),
            ("preferredcodec", "mp3"),
            ("preferredquality", "128")]]) ∧
    List.lookup "format" (videoOpts (outtmpl (workdirPath uid)))
      = some (OptVal.str "best[ext=mp4]/best") := by
  refine ⟨?_, ?_, rfl, rfl, rfl⟩
  · intro hk
    rw [optsUsed_download form uid res hurl]
    have ha : (formKind form == "audio") = true := (formKind_audio_iff form).mpr hk
    simp [ha]
  · intro hk
    rw [optsUsed_download form uid res hurl]
    have ha : (formKind form == "audio") = false := by
      cases hb : (formKind form == "audio") with
      | true => exact absurd ((formKind_audio_iff form).mp hb) hk
      | false => rfl
    simp [ha]

/-- Witness for C2 at two concrete requests, one audio and one video. -/
theorem C2_opts_determined_by_kind_witness :
    optsUsed (download (DownloadForm.mk (some "https://example.com/a") (some "audio"))
        "ccdd02" (ExtractResult.exn "boom"))
      = [audioOpts (outtmpl (workdirPath "ccdd02"))] ∧
    optsUsed (download (DownloadForm.mk (some "https://example.com/a") none)
        "ccdd02" (ExtractResult.exn "boom"))
      = [videoOpts (outtmpl (workdirPath "ccdd02"))] :=
  ⟨(C2_opts_determined_by_kind (DownloadForm.mk (some "https://example.com/a") (some "audio"))
      "ccdd02" (ExtractResult.exn "boom") (by decide)).1 rfl,
   (C2_opts_determined_by_kind (DownloadForm.mk (some "https://example.com/a") none)
      "ccdd02" (ExtractResult.exn "boom") (by decide)).2.1 (by decide)⟩

/-- C3: `cleanup_path` sleeps for the given number of seconds first; then, if
the path still exists and the filesystem raises no error, it deletes the
path (unlinking a file, recursively removing a directory), and it never
propagates an exception, whatever filesystem error occurs. -/
theorem C3_cleanup_path_deletes_and_never_raises (path : String) (wait_seconds : Nat)
    (st : PathState) (fsError : Option String) :
    (cleanup_path path wait_seconds st fsError).raised = false ∧
    (cleanup_path path wait_seconds st fsError).actions.head? =
      some (CleanupAction.sleepFor wait_seconds) ∧
    (st.stillThere = true → fsError = none →
      (cleanup_path path wait_seconds st fsError).finalExists = false ∧
      (cleanup_path path wait_seconds st fsError).actions =
        [CleanupAction.sleepFor wait_seconds,
         if st.isFile then CleanupAction.unlinkFile path
         else CleanupAction.rmtreeDir path]) := by
  rcases st with ⟨there, isf⟩
  cases there <;> rcases fsError with _ | e <;>
    simp [cleanup_path, deleteAttempt]

/-- Witness for C3: a still-existing directory with no filesystem error is
removed after the sleep, and an injected error is swallowed. -/
theorem C3_cleanup_path_witness :
    (cleanup_path "./downloads_temp/w" 30 (PathState.mk true false) none).raised = false ∧
    (cleanup_path "./downloads_temp/w" 30 (PathState.mk true false) none).finalExists = false ∧
    (cleanup_path "./downloads_temp/w" 30 (PathState.mk true false) none).actions =
      [CleanupAction.sleepFor 30, CleanupAction.rmtreeDir "./downloads_temp/w"] ∧
    (cleanup_path "./downloads_temp/w" 5 (PathState.mk true true)
        (some "Permission denied")).raised = false := by
  have h := C3_cleanup_path_deletes_and_never_raises "./downloads_temp/w" 30
    (PathState.mk true false) none
  have h5 := C3_cleanup_path_deletes_and_never_raises "./downloads_temp/w" 5
    (PathState.mk true true) (some "Permission denied")
  exact ⟨h.1, (h.2.2 rfl rfl).1, by simpa using (h.2.2 rfl rfl).2, h5.1⟩

/-- C4: when the extraction tool raises, the handler flashes an error message
containing the exception text, schedules deletion of the work directory
with a 5-second delay, and redirects to the index page; no file is served. -/
theorem C4_exception_path (form : DownloadForm) (uid : String) (msg : String)
    (hurl : urlOk (formUrl form) = true) :
    flashes (download form uid (ExtractResult.exn msg)) = ["Error: " ++ msg] ∧
    scheduledCleanups (download form uid (ExtractResult.exn msg)) =
      [(workdirPath uid, 5)] ∧
    responses (download form uid (ExtractResult.exn msg)) = [Response.redirectIndex] ∧
    ∀ p n, Response.sendFileResp p n ∉ responses (download form uid (ExtractResult.exn msg)) := by
  rw [download_exn_eq form uid msg hurl]
  refine ⟨?_, ?_, ?_, ?_⟩ <;> simp [flashes, scheduledCleanups, responses]

/-- Witness for C4 at a concrete request and exception. -/
theorem C4_exception_path_witness :
    flashes (download (DownloadForm.mk (some "https://example.com/v") (some "video"))
        "eeff03" (ExtractResult.exn "HTTP Error 403")) = ["Error: " ++ "HTTP Error 403"] ∧
    scheduledCleanups (download (DownloadForm.mk (some "https://example.com/v") (some "video"))
        "eeff03" (ExtractResult.exn "HTTP Error 403")) = [(workdirPath "eeff03", 5)] ∧
    responses (download (DownloadForm.mk (some "https://example.com/v") (some "video"))
        "eeff03" (ExtractResult.exn "HTTP Error 403")) = [Response.redirectIndex] ∧
    ∀ p n, Response.sendFileResp p n ∉
      responses (download (DownloadForm.mk (some "https://example.com/v") (some "video"))
        "eeff03" (ExtractResult.exn "HTTP Error 403")) :=
  C4_exception_path (DownloadForm.mk (some "https://example.com/v") (some "video"))
    "eeff03" "HTTP Error 403" (by decide)

/-- C5: on the success path the response is built from the selected file while
deletion of the work directory is only scheduled, with a 30-second delay;
every scheduled deletion has a positive delay and its worker sleeps for the
delay before touching the filesystem, so deletion never precedes serving. -/
theorem C5_serve_before_delete (form : DownloadForm) (uid : String) (dirFiles : List FsFile)
    (f : FsFile) (rest : List FsFile)
    (hurl : urlOk (formUrl form) = true) (hs : sortFiles dirFiles = f :: rest) :
    responses (download form uid (ExtractResult.ok dirFiles)) =
      [Response.sendFileResp (workdirPath uid ++ "/" ++ f.name) f.name] ∧
    scheduledCleanups (download form uid (ExtractResult.ok dirFiles)) =
      [(workdirPath uid, 30)] ∧
    (∀ d ∈ deletionDelays (download form uid (ExtractResult.ok dirFiles)), 0 < d) ∧
    (∀ st fsError, (cleanup_path (workdirPath uid) 30 st fsError).actions.head? =
      some (CleanupAction.sleepFor 30)) := by
  rw [download_ok_cons_eq form uid dirFiles f rest hurl hs]
  refine ⟨?_, ?_, ?_, ?_⟩
  · simp [responses]
  · simp [scheduledCleanups]
  · simp [deletionDelays, scheduledCleanups]
  · intro st fsError
    rcases st with ⟨there, isf⟩
    cases there <;> rcases fsError with _ | e <;> simp [cleanup_path, deleteAttempt]

/-- Witness for C5 at a concrete successful request. -/
theorem C5_serve_before_delete_witness :
    responses (download (DownloadForm.mk (some "https://example.com/v") (some "video"))
        "abcd04" (ExtractResult.ok [FsFile.mk "song.mp3" 999])) =
      [Response.sendFileResp (workdirPath "abcd04" ++ "/" ++ (FsFile.mk "song.mp3" 999).name)
        (FsFile.mk "song.mp3" 999).name] ∧
    scheduledCleanups (download (DownloadForm.mk (some "https://example.com/v") (some "video"))
        "abcd04" (ExtractResult.ok [FsFile.mk "song.mp3" 999])) = [(workdirPath "abcd04", 30)] ∧
    (∀ d ∈ deletionDelays (download (DownloadForm.mk (some "https://example.com/v") (some "video"))
        "abcd04" (ExtractResult.ok [FsFile.mk "song.mp3" 999])), 0 < d) ∧
    (∀ st fsError, (cleanup_path (workdirPath "abcd04") 30 st fsError).actions.head? =
      some (CleanupAction.sleepFor 30)) :=
  C5_serve_before_delete (DownloadForm.mk (some "https://example.com/v") (some "video"))
    "abcd04" [FsFile.mk "song.mp3" 999] (FsFile.mk "song.mp3" 999) []
    (by decide) (by simp [sortFiles])

/-- C6: the options passed to the extraction tool are identical for any two
valid requests with the same format choice and the same work directory; in
particular they do not depend on the submitted URL. -/
theorem C6_opts_independent_of_url (form1 form2 : DownloadForm) (uid : String)
    (res1 res2 : ExtractResult)
    (h1 : urlOk (formUrl form1) = true) (h2 : urlOk (formUrl form2) = true)
    (hk : form1.kind = form2.kind) :
    optsUsed (download form1 uid res1) = optsUsed (download form2 uid res2) := by
  rw [optsUsed_download form1 uid res1 h1, optsUsed_download form2 uid res2 h2]
  simp [formKind, hk]

/-- Witness for C6: two audio requests for different URLs and with different
extraction outcomes receive the same options. -/
theorem C6_opts_independent_of_url_witness :
    optsUsed (download (DownloadForm.mk (some "https://a.example/1") (some "audio"))
        "ff0005" (ExtractResult.ok [])) =
    optsUsed (download (DownloadForm.mk (some "https://b.example/2") (some "audio"))
        "ff0005" (ExtractResult.exn "boom")) :=
  C6_opts_independent_of_url (DownloadForm.mk (some "https://a.example/1") (some "audio"))
    (DownloadForm.mk (some "https://b.example/2") (some "audio")) "ff0005"
    (ExtractResult.ok []) (ExtractResult.exn "boom") (by decide) (by decide) rfl

/-- C7: every validated request works in its own directory: the handler's
first action creates `BASE_TEMP/uid` for the generated UUID hex `uid`,
before the extraction tool runs, and distinct UUID hexes yield distinct
work directories. -/
theorem C7_fresh_workdir (form : DownloadForm) (uid : String) (res : ExtractResult)
    (hurl : urlOk (formUrl form) = true) :
    mkdirs (download form uid res) = [workdirPath uid] ∧
    (download form uid res).head? = some (Event.mkdirEv (workdirPath uid)) ∧
    workdirPath uid = BASE_TEMP ++ "/" ++ uid ∧
    (∀ uid1 uid2 : String, uid1 ≠ uid2 → workdirPath uid1 ≠ workdirPath uid2) := by
  refine ⟨?_, ?_, rfl, ?_⟩
  · cases res with
    | exn msg =>
      rw [download_exn_eq form uid msg hurl]; simp [mkdirs]
    | ok dirFiles =>
      rcases hs : sortFiles dirFiles with _ | ⟨f, rest⟩
      · rw [download_ok_nil_eq form uid dirFiles hurl hs]; simp [mkdirs]
      · rw [download_ok_cons_eq form uid dirFiles f rest hurl hs]; simp [mkdirs]
  · cases res with
    | exn msg => rw [download_exn_eq form uid msg hurl]; rfl
    | ok dirFiles =>
      rcases hs : sortFiles dirFiles with _ | ⟨f, rest⟩
      · rw [download_ok_nil_eq form uid dirFiles hurl hs]; rfl
      · rw [download_ok_cons_eq form uid dirFiles f rest hurl hs]; rfl
  · intro uid1 uid2 hne hc
    exact hne (workdirPath_injective uid1 uid2 hc)

/-- Witness for C7 at a concrete request. -/
theorem C7_fresh_workdir_witness :
    mkdirs (download (DownloadForm.mk (some "https://example.com/v") (some "audio"))
        "0123abcd" (ExtractResult.exn "boom")) = [workdirPath "0123abcd"] ∧
    (download (DownloadForm.mk (some "https://example.com/v") (some "audio"))
        "0123abcd" (ExtractResult.exn "boom")).head? =
      some (Event.mkdirEv (workdirPath "0123abcd")) ∧
    workdirPath "0123abcd" = BASE_TEMP ++ "/" ++ "0123abcd" ∧
    (∀ uid1 uid2 : String, uid1 ≠ uid2 → workdirPath uid1 ≠ workdirPath uid2) :=
  C7_fresh_workdir (DownloadForm.mk (some "https://example.com/v") (some "audio"))
    "0123abcd" (ExtractResult.exn "boom") (by decide)

/-- C8: a request whose stripped URL is empty or lacks an `http://` or
`https://` scheme is rejected: the handler flashes "Please enter a valid
URL" and redirects to the index page, creating no work directory and never
invoking the extraction tool.  The hypothesis is exactly that condition, as
the final conjunct records. -/
theorem C8_invalid_url_rejected (form : DownloadForm) (uid : String) (res : ExtractResult)
    (hurl : urlOk (formUrl form) = false) :
    download form uid res =
      [Event.flashEv "Please enter a valid URL",
       Event.respondEv Response.redirectIndex] ∧
    mkdirs (download form uid res) = [] ∧
    extractCalls (download form uid res) = [] ∧
    flashes (download form uid res) = ["Please enter a valid URL"] ∧
    responses (download form uid res) = [Response.redirectIndex] ∧
    (∀ u : String, urlOk u = false ↔
      (u.data.isEmpty = true ∨
        (pyStartsWith u "http://" = false ∧ pyStartsWith u "https://" = false))) := by
  have heq := download_invalid_eq form uid res hurl
  refine ⟨heq, ?_, ?_, ?_, ?_, ?_⟩
  · rw [heq]; simp [mkdirs]
  · rw [heq]; simp [extractCalls]
  · rw [heq]; simp [flashes]
  · rw [heq]; simp [responses]
  · intro u
    unfold urlOk
    cases he : u.data.isEmpty <;>
      cases h1 : pyStartsWith u "http://" <;>
        cases h2 : pyStartsWith u "https://" <;> simp [he, h1, h2]

/-- Witness for C8 at a concrete request whose URL lacks a scheme. -/
theorem C8_invalid_url_rejected_witness :
    download (DownloadForm.mk (some "  ftp://example.com/v ") (some "video"))
        "9876fe" (ExtractResult.exn "never reached") =
      [Event.flashEv "Please enter a valid URL",
       Event.respondEv Response.redirectIndex] ∧
    mkdirs (download (DownloadForm.mk (some "  ftp://example.com/v ") (some "video"))
        "9876fe" (ExtractResult.exn "never reached")) = [] ∧
    extractCalls (download (DownloadForm.mk (some "  ftp://example.com/v ") (some "video"))
        "9876fe" (ExtractResult.exn "never reached")) = [] ∧
    flashes (download (DownloadForm.mk (some "  ftp://example.com/v ") (some "video"))
        "9876fe" (ExtractResult.exn "never reached")) = ["Please enter a valid URL"] ∧
    responses (download (DownloadForm.mk (some "  ftp://example.com/v ") (some "video"))
        "9876fe" (ExtractResult.exn "never reached")) = [Response.redirectIndex] ∧
    (∀ u : String, urlOk u = false ↔
      (u.data.isEmpty = true ∨
        (pyStartsWith u "http://" = false ∧ pyStartsWith u "https://" = false))) :=
  C8_invalid_url_rejected (DownloadForm.mk (some "  ftp://example.com/v ") (some "video"))
    "9876fe" (ExtractResult.exn "never reached") (by decide)

/-- C9: when the extraction tool returns normally but the work directory holds
no files, the handler flashes "Download completed but file not found.",
schedules deletion of the work directory with a 5-second delay, and
redirects to the index page rather than serving a file. -/
theorem C9_no_file_found (form : DownloadForm) (uid : String) (dirFiles : List FsFile)
    (hurl : urlOk (formUrl form) = true) (hempty : dirFiles = []) :
    flashes (download form uid (ExtractResult.ok dirFiles)) =
      ["Download completed but file not found."] ∧
    scheduledCleanups (download form uid (ExtractResult.ok dirFiles)) =
      [(workdirPath uid, 5)] ∧
    responses (download form uid (ExtractResult.ok dirFiles)) = [Response.redirectIndex] ∧
    ∀ p n, Response.sendFileResp p n ∉ responses (download form uid (ExtractResult.ok dirFiles)) := by
  have hs : sortFiles dirFiles = [] := (sortFiles_nil_iff dirFiles).mpr hempty
  rw [download_ok_nil_eq form uid dirFiles hurl hs]
  refine ⟨?_, ?_, ?_, ?_⟩ <;> simp [flashes, scheduledCleanups, responses]

/-- Witness for C9 at a concrete request with an empty work directory. -/
theorem C9_no_file_found_witness :
    flashes (download (DownloadForm.mk (some "https://example.com/v") (some "audio"))
        "5432dc" (ExtractResult.ok [])) = ["Download completed but file not found."] ∧
    scheduledCleanups (download (DownloadForm.mk (some "https://example.com/v") (some "audio"))
        "5432dc" (ExtractResult.ok [])) = [(workdirPath "5432dc", 5)] ∧
    responses (download (DownloadForm.mk (some "https://example.com/v") (some "audio"))
        "5432dc" (ExtractResult.ok [])) = [Response.redirectIndex] ∧
    ∀ p n, Response.sendFileResp p n ∉
      responses (download (DownloadForm.mk (some "https://example.com/v") (some "audio"))
        "5432dc" (ExtractResult.ok [])) :=
  C9_no_file_found (DownloadForm.mk (some "https://example.com/v") (some "audio"))
    "5432dc" [] (by decide) rfl

/-- C10: every execution that creates a work directory schedules exactly one
deferred deletion of that directory: with a 30-second delay when a file is
served and a 5-second delay otherwise; no such execution leaves the work
directory unscheduled. -/
theorem C10_exactly_one_cleanup (form : DownloadForm) (uid : String) (res : ExtractResult)
    (hmk : mkdirs (download form uid res) ≠ []) :
    ∃ d, scheduledCleanups (download form uid res) = [(workdirPath uid, d)] ∧
      ((∃ p n, Response.sendFileResp p n ∈ responses (download form uid res)) → d = 30) ∧
      ((¬ ∃ p n, Response.sendFileResp p n ∈ responses (download form uid res)) → d = 5) := by
  by_cases hurl : urlOk (formUrl form) = true
  · cases res with
    | exn msg =>
      refine ⟨5, ?_, ?_, fun _ => rfl⟩
      · rw [download_exn_eq form uid msg hurl]; simp [scheduledCleanups]
      · rintro ⟨p, n, hp⟩
        rw [download_exn_eq form uid msg hurl] at hp
        simp [responses] at hp
    | ok dirFiles =>
      rcases hs : sortFiles dirFiles with _ | ⟨f, rest⟩
      · refine ⟨5, ?_, ?_, fun _ => rfl⟩
        · rw [download_ok_nil_eq form uid dirFiles hurl hs]; simp [scheduledCleanups]
        · rintro ⟨p, n, hp⟩
          rw [download_ok_nil_eq form uid dirFiles hurl hs] at hp
          simp [responses] at hp
      · refine ⟨30, ?_, fun _ => rfl, ?_⟩
        · rw [download_ok_cons_eq form uid dirFiles f rest hurl hs]; simp [scheduledCleanups]
        · intro hno
          refine absurd ⟨workdirPath uid ++ "/" ++ f.name, f.name, ?_⟩ hno
          rw [download_ok_cons_eq form uid dirFiles f rest hurl hs]
          simp [responses]
  · exfalso
    apply hmk
    have hf : urlOk (formUrl form) = false := by
      cases hb : urlOk (formUrl form) with
      | true => exact absurd hb hurl
      | false => rfl
    rw [download_invalid_eq form uid res hf]
    simp [mkdirs]

/-- Witness for C10 on the served path at a concrete request. -/
theorem C10_exactly_one_cleanup_witness :
    ∃ d, scheduledCleanups (download (DownloadForm.mk (some "https://example.com/v") (some "video"))
        "7777aa" (ExtractResult.exn "boom")) = [(workdirPath "7777aa", d)] ∧
      ((∃ p n, Response.sendFileResp p n ∈
          responses (download (DownloadForm.mk (some "https://example.com/v") (some "video"))
            "7777aa" (ExtractResult.exn "boom"))) → d = 30) ∧
      ((¬ ∃ p n, Response.sendFileResp p n ∈
          responses (download (DownloadForm.mk (some "https://example.com/v") (some "video"))
            "7777aa" (ExtractResult.exn "boom"))) → d = 5) :=
  C10_exactly_one_cleanup (DownloadForm.mk (some "https://example.com/v") (some "video"))
    "7777aa" (ExtractResult.exn "boom") (by decide)

end Downloader
